import Mathlib

/-!
Shallow embedding of the AM-Calendar repository (`app.py`): the activity
store (SQLite table `activities` with `activity_id TEXT PRIMARY KEY`,
accessed through `upsert_row`, `delete_activity`, `load_df`, `import_csv`)
and the month-grid layout (`month_calendar_figure`).  Machine-level detail
that the claims do not touch (pixel coordinates, Plotly figure styling,
export formats) is not modelled; the structured content of the grid —
day numbers, event summary lines, overflow markers — is.
-/

namespace AMCalendar

/-! ## Datetimes

The application stores datetimes as text and parses them with
`pd.to_datetime`; every datetime entered through the form uses the
`YYYY-MM-DD HH:MM` shape (the form's placeholder and default).  The model
restricts the parser to that shape: a string of any other shape stands for
an input on which `pd.to_datetime` raises (is unparsable).  Calendar-range
validation (month 1..12, day within the month, hour/minute in range)
mirrors pandas rejecting out-of-range dates such as `2025-02-30 09:00`. -/

structure DateTime where
  year : Nat
  month : Nat
  day : Nat
  hour : Nat
  minute : Nat
deriving DecidableEq

def isLeap (y : Nat) : Bool := y % 4 == 0 && (y % 100 != 0 || y % 400 == 0)

def daysInMonth (y m : Nat) : Nat :=
  if m = 2 then (if isLeap y then 29 else 28)
  else if m = 4 ∨ m = 6 ∨ m = 9 ∨ m = 11 then 30
  else 31

def digitVal (c : Char) : Option Nat :=
  if c.isDigit then some (c.toNat - 48) else none

def num2 (a b : Char) : Option Nat := do
  let x ← digitVal a
  let y ← digitVal b
  pure (10 * x + y)

def num4 (a b c d : Char) : Option Nat := do
  let x ← num2 a b
  let y ← num2 c d
  pure (100 * x + y)

def parseDateTime (s : String) : Option DateTime :=
  match s.data with
  | [y1, y2, y3, y4, '-', m1, m2, '-', d1, d2, ' ', h1, h2, ':', n1, n2] => do
    let y ← num4 y1 y2 y3 y4
    let mo ← num2 m1 m2
    let dy ← num2 d1 d2
    let hr ← num2 h1 h2
    let mi ← num2 n1 n2
    if 1 ≤ y ∧ 1 ≤ mo ∧ mo ≤ 12 ∧ 1 ≤ dy ∧ dy ≤ daysInMonth y mo ∧ hr ≤ 23 ∧ mi ≤ 59 then
      some ⟨y, mo, dy, hr, mi⟩
    else none
  | _ => none

/-! ## The activity store

A stored row of the `activities` table.  Every column of the
`CREATE TABLE` statement is a field.  `activity_id` is an `Option`
because SQLite permits `NULL` in a declared `TEXT PRIMARY KEY` column of
an ordinary rowid table (a documented SQLite compatibility quirk), and
a row read from a CSV lacking that column carries `none` there.  The
remaining columns only ever receive concrete values on the
paths the claims exercise, so they are plain `String`/`Int`.  The store
state is the list of rows in rowid (insertion) order, which is the order
`SELECT * FROM activities` returns. -/

structure Row where
  activity_id : Option String
  trip_id : String
  trip_name : String
  supplier_id : String
  supplier_name : String
  title : String
  category : String
  start_datetime : String
  end_datetime : String
  location : String
  status : String
  pax : Int
  guide_language : String
  notes : String
deriving DecidableEq

/-- SQL equality of the `activity_id` column against a bound parameter:
`NULL = x` is not true for any `x` (three-valued logic), so a `NULL`
on either side never matches. -/
def sqlEqId (x y : Option String) : Bool :=
  match x, y with
  | some a, some b => a == b
  | _, _ => false

/-- Model of `upsert_row`: inside one transaction, `DELETE FROM
activities WHERE activity_id = :id` followed by an append of the single
new row. -/
def upsert_row (row : Row) (store : List Row) : List Row :=
  store.filter (fun r => !sqlEqId r.activity_id row.activity_id) ++ [row]

/-- Model of `delete_activity`: the statement `DELETE FROM activities
WHERE activity_id = :id`. -/
def delete_activity (id : String) (store : List Row) : List Row :=
  store.filter (fun r => !sqlEqId r.activity_id (some id))

/-- Model of `load_df`: `SELECT * FROM activities` inside `try`, with any
exception from the read mapped to an empty frame (with the fixed column
list).  The outcome of the underlying read is the abstract argument:
`Except.ok rows` when the query returns `rows`, `Except.error ()` when it
raises (no table, unreachable store, ...). -/
def load_df (backend : Except Unit (List Row)) : List Row :=
  match backend with
  | .ok rows => rows
  | .error _ => []

/-- Python's `str.strip()`: drop whitespace from both ends. -/
def stripStr (s : String) : String :=
  String.mk (((s.data.dropWhile Char.isWhitespace).reverse.dropWhile Char.isWhitespace).reverse)

/-- The raw text-input state of the `activity_form` at submit time. -/
structure FormInput where
  activity_id : String
  trip_id : String
  trip_name : String
  supplier_id : String
  supplier_name : String
  title : String
  category : String
  start_datetime : String
  end_datetime : String
  location : String
  status : String
  pax : Int
  guide_language : String
  notes : String

/-- The `row = dict(...)` built by the submit handler: every free-text
field is `.strip()`ped; category, status and pax are taken as-is. -/
def rowOfForm (f : FormInput) : Row :=
  { activity_id := some (stripStr f.activity_id)
    trip_id := stripStr f.trip_id
    trip_name := stripStr f.trip_name
    supplier_id := stripStr f.supplier_id
    supplier_name := stripStr f.supplier_name
    title := stripStr f.title
    category := f.category
    start_datetime := stripStr f.start_datetime
    end_datetime := stripStr f.end_datetime
    location := stripStr f.location
    status := f.status
    pax := f.pax
    guide_language := stripStr f.guide_language
    notes := stripStr f.notes }

/-- The submit branch of `activity_form`: reject a blank (stripped) id;
otherwise parse both datetimes and, only if both parse, run `upsert_row`.
Returns the store after the attempt together with the error message shown
by `st.error`, if any. -/
def activity_form_submit (f : FormInput) (store : List Row) : List Row × Option String :=
  if stripStr f.activity_id = "" then
    (store, some "Necesitás un ID de actividad único.")
  else
    match parseDateTime (rowOfForm f).start_datetime, parseDateTime (rowOfForm f).end_datetime with
    | some _, some _ => (upsert_row (rowOfForm f) store, none)
    | _, _ => (store, some "Error guardando la actividad")

/-! ## Month-grid layout (`month_calendar_figure`) -/

/-- Two-digit zero-padded rendering, as `strftime` produces for `%H` and
`%M` (both arguments are below 60 wherever this is applied). -/
def pad2 (n : Nat) : String :=
  String.mk [Char.ofNat (48 + n / 10), Char.ofNat (48 + n % 10)]

/-- One event summary line: `supplier_name`, a colon and space, the
`HH:MM` start time, a space, the title. -/
def lineOf (r : Row) (dt : DateTime) : String :=
  r.supplier_name ++ ": " ++ pad2 dt.hour ++ ":" ++ pad2 dt.minute ++ " " ++ r.title

/-- The `df["start_dt"] = pd.to_datetime(df["start_datetime"])` column
assignment: converts every row's start before any filtering, and raises
(returns `none`) if any row of the frame is unparsable. -/
def parseAll (df : List Row) : Option (List (Row × DateTime)) :=
  df.mapM (fun r => (parseDateTime r.start_datetime).map (fun dt => (r, dt)))

/-- Sort key of a parsed start datetime; lexicographic in
(year, month, day, hour, minute) over their valid ranges. -/
def sortKey (p : Row × DateTime) : Nat :=
  ((((p.2.year * 13 + p.2.month) * 32 + p.2.day) * 24 + p.2.hour) * 60 + p.2.minute)

def insertRow (x : Row × DateTime) : List (Row × DateTime) → List (Row × DateTime)
  | [] => [x]
  | y :: ys => if sortKey x ≤ sortKey y then x :: y :: ys else y :: insertRow x ys

/-- The `df.sort_values("start_dt")` step, modelled as an insertion sort
on the start key.  The library's default sort algorithm leaves the
relative order of rows with equal keys unspecified; no theorem below
depends on the order of equal keys. -/
def sortByStart : List (Row × DateTime) → List (Row × DateTime)
  | [] => []
  | x :: xs => insertRow x (sortByStart xs)

/-- The `(dt.year == year) & (dt.month == month)` filter. -/
def monthFilter (l : List (Row × DateTime)) (year month : Nat) : List (Row × DateTime) :=
  l.filter (fun p => p.2.year == year && p.2.month == month)

/-- The `if suppliers: df = df[df["supplier_name"].isin(suppliers)]` step. -/
def supplierFilter (l : List (Row × DateTime)) (sups : List String) : List (Row × DateTime) :=
  if sups.isEmpty then l else l.filter (fun p => sups.contains p.1.supplier_name)

/-- The per-day list built by the `by_day.setdefault(d, []).append(line)`
loop: the summary lines of the rows of that day, in iteration (sorted)
order. -/
def eventLines (sorted : List (Row × DateTime)) (day : Nat) : List String :=
  (sorted.filter (fun p => p.2.day == day)).map (fun p => lineOf p.1 p.2)

/-- Structured content of one grid cell: the day number (0 for a padding
cell outside the month), the detail lines actually annotated, and the
count carried by the `+N más` overflow marker (0 when none is drawn). -/
structure Cell where
  day : Nat
  lines : List String
  overflow : Nat
deriving DecidableEq

/-- The annotations drawn inside one day cell: up to `max_lines` event
lines (`max_show = min(len(eventos), max_lines)`), and the overflow
marker exactly when `len(eventos) > max_show`. -/
def buildCell (sorted : List (Row × DateTime)) (max_lines day : Nat) : Cell :=
  if day = 0 then ⟨0, [], 0⟩
  else
    let eventos := eventLines sorted day
    let max_show := min eventos.length max_lines
    ⟨day, eventos.take max_show,
      if eventos.length > max_show then eventos.length - max_show else 0⟩

/-! Python's `calendar.monthcalendar` (firstweekday = Monday), embedded
through the proleptic-Gregorian ordinal used by `datetime.date`:
0001-01-01 has ordinal 1 and is a Monday. -/

def daysBeforeYear (y : Nat) : Nat :=
  365 * (y - 1) + (y - 1) / 4 - (y - 1) / 100 + (y - 1) / 400

def daysBeforeMonth (y m : Nat) : Nat :=
  ((List.range (m - 1)).map (fun i => daysInMonth y (i + 1))).sum

def toOrdinal (y m d : Nat) : Nat :=
  daysBeforeYear y + daysBeforeMonth y m + d

/-- Weekday of the first of the month, Monday = 0. -/
def firstWeekday (y m : Nat) : Nat :=
  (toOrdinal y m 1 + 6) % 7

/-- Number of Monday-first weeks the month spans. -/
def numWeeks (year month : Nat) : Nat :=
  (firstWeekday year month + daysInMonth year month + 6) / 7

/-- Model of `cal.monthcalendar(year, month)`: the weeks as rows of 7
day numbers, 0 marking cells outside the month. -/
def monthcalendar (year month : Nat) : List (List Nat) :=
  (List.range (numWeeks year month)).map (fun w =>
    (List.range 7).map (fun c =>
      let idx := 7 * w + c
      if firstWeekday year month ≤ idx ∧ idx < firstWeekday year month + daysInMonth year month then
        idx - firstWeekday year month + 1
      else 0))

/-- Model of `month_calendar_figure`, reduced to the structured grid content.
`Option` carries the two exceptions the function can raise: `none` when
`pd.to_datetime` fails on some row of the frame, and `none` when
`max_lines = 0` while some filtered event exists — the first day cell
holding events then computes `step = usable / max_lines` and raises
`ZeroDivisionError` (every surviving event's day is a day of the target
month, so such a cell is always reached). -/
def month_calendar_figure (df : List Row) (suppliers : List String)
    (year month max_lines : Nat) : Option (List (List Cell)) :=
  (parseAll df).bind (fun parsed =>
    if max_lines = 0 ∧ sortByStart (supplierFilter (monthFilter parsed year month) suppliers) ≠ [] then
      none
    else
      some ((monthcalendar year month).map (fun week =>
        week.map (buildCell (sortByStart (supplierFilter (monthFilter parsed year month) suppliers)) max_lines))))

/-- Number of events of the given day that survive the month and supplier
filters (0 when the figure call would fail to parse). -/
def totalEventsOn (df : List Row) (suppliers : List String) (year month day : Nat) : Nat :=
  match parseAll df with
  | none => 0
  | some parsed =>
    ((supplierFilter (monthFilter parsed year month) suppliers).filter (fun p => p.2.day == day)).length

/-! ## Concrete data for witnesses and counterexamples -/

def sampleRow : Row :=
  { activity_id := some "A1", trip_id := "T1", trip_name := "Trip One",
    supplier_id := "S1", supplier_name := "Gaby", title := "Tour",
    category := "tour", start_datetime := "2025-03-05 09:00",
    end_datetime := "2025-03-05 10:00", location := "CDMX",
    status := "confirmado", pax := 2, guide_language := "EN", notes := "" }

def sampleRow2 : Row :=
  { sampleRow with
    activity_id := some "A2"
    supplier_name := "Etien"
    title := "Transfer"
    start_datetime := "2025-03-05 08:00" }

/-- A row with the id of `sampleRow` but different content. -/
def dupIdRow : Row := { sampleRow with title := "Duplicate" }

lemma sqlEqId_none_right (x : Option String) : sqlEqId x none = false := by
  cases x <;> rfl

lemma not_sqlEqId_some (x : Option String) (id : String) :
    (!sqlEqId x (some id)) = (x != some id) := by
  cases x <;> rfl

lemma eqId_and_not_sqlEqId (x : Option String) (id : String) :
    ((x == some id) && !sqlEqId x (some id)) = false := by
  cases x with
  | none => rfl
  | some a =>
    show ((a == id) && !(a == id)) = false
    exact Bool.and_not_self _

lemma delete_activity_eq (id : String) (store : List Row) :
    delete_activity id store = store.filter (fun r => r.activity_id != some id) := by
  unfold delete_activity
  exact List.filter_congr (fun r _ => not_sqlEqId_some r.activity_id id)

/-! ## C1 -/

/-- C1. For every valid Activity `a` (non-empty id, parseable datetimes)
and every prior store state, `upsert_row a` followed by a load yields a
store in which the records whose `activity_id` equals `a`'s are exactly
`[a]`: one record, equal to `a` in every field — full replacement, no
duplicate, no partial merge. -/
theorem c1_upsert_replaces (a : Row) (store : List Row) (id : String)
    (hid : a.activity_id = some id) (hne : id ≠ "")
    (hs : (parseDateTime a.start_datetime).isSome = true)
    (he : (parseDateTime a.end_datetime).isSome = true) :
    (load_df (Except.ok (upsert_row a store))).filter
      (fun r => r.activity_id == a.activity_id) = [a] := by
  show (upsert_row a store).filter (fun r => r.activity_id == a.activity_id) = [a]
  unfold upsert_row
  rw [hid, List.filter_append]
  have h1 : (store.filter (fun r => !sqlEqId r.activity_id (some id))).filter
      (fun r => r.activity_id == some id) = [] := by
    rw [List.filter_filter]
    apply List.filter_eq_nil_iff.mpr
    intro r _
    simp [eqId_and_not_sqlEqId]
  have h2 : List.filter (fun r => r.activity_id == some id) [a] = [a] := by
    simp [hid]
  rw [h1, h2, List.nil_append]

theorem c1_witness :
    sampleRow.activity_id = some "A1" ∧ "A1" ≠ "" ∧
    (parseDateTime sampleRow.start_datetime).isSome = true ∧
    (parseDateTime sampleRow.end_datetime).isSome = true ∧
    (load_df (Except.ok (upsert_row sampleRow [sampleRow2, dupIdRow]))).filter
      (fun r => r.activity_id == sampleRow.activity_id) = [sampleRow] :=
  ⟨rfl, by decide, rfl, rfl,
    c1_upsert_replaces sampleRow [sampleRow2, dupIdRow] "A1" rfl (by decide) rfl rfl⟩

/-! ## C2 -/

/-- C2. A submitted record whose (stripped) `activity_id` is empty, or
whose start or end datetime does not parse, is rejected: an error message
is surfaced and the store afterwards is exactly the store before — no
record inserted, deleted or modified. -/
theorem c2_invalid_submit_rejected (f : FormInput) (store : List Row)
    (hbad : stripStr f.activity_id = "" ∨ parseDateTime (stripStr f.start_datetime) = none ∨
      parseDateTime (stripStr f.end_datetime) = none) :
    (activity_form_submit f store).1 = store ∧
    (activity_form_submit f store).2.isSome = true := by
  unfold activity_form_submit
  by_cases hid : stripStr f.activity_id = ""
  · rw [if_pos hid]
    exact ⟨rfl, rfl⟩
  · rw [if_neg hid]
    have hst : (rowOfForm f).start_datetime = stripStr f.start_datetime := rfl
    have hen : (rowOfForm f).end_datetime = stripStr f.end_datetime := rfl
    rcases hbad with h | h | h
    · exact absurd h hid
    · rw [hst, hen, h]
      cases parseDateTime (stripStr f.end_datetime) <;> exact ⟨rfl, rfl⟩
    · rw [hst, hen, h]
      cases parseDateTime (stripStr f.start_datetime) <;> exact ⟨rfl, rfl⟩

/-- The form state of a submission with a whitespace-only id. -/
def blankIdForm : FormInput :=
  { activity_id := "   ", trip_id := "T1", trip_name := "Trip One",
    supplier_id := "S1", supplier_name := "Gaby", title := "Tour",
    category := "tour", start_datetime := "2025-03-05 09:00",
    end_datetime := "2025-03-05 10:00", location := "CDMX",
    status := "confirmado", pax := 2, guide_language := "EN", notes := "" }

theorem c2_witness :
    stripStr blankIdForm.activity_id = "" ∧
    (activity_form_submit blankIdForm [sampleRow]).1 = [sampleRow] ∧
    (activity_form_submit blankIdForm [sampleRow]).2.isSome = true := by
  have h := c2_invalid_submit_rejected blankIdForm [sampleRow] (Or.inl (by decide))
  exact ⟨by decide, h.1, h.2⟩

/-! ## C6 -/

/-- C6 (code bug).  With `max_lines = 0` and at least one event surviving
the filters, `month_calendar_figure` does not complete: the first
non-empty day cell evaluates `step = usable / max_lines`, a division by
zero, and the call raises instead of producing the overflow-only grid the
spec promises.  With no surviving event the call does complete (no cell
is non-empty, so the division is never reached). -/
theorem c6_zero_max_lines_crashes :
    month_calendar_figure [sampleRow] [] 2025 3 0 = none ∧
    (month_calendar_figure ([] : List Row) [] 2025 3 0).isSome = true :=
  ⟨rfl, rfl⟩

/-! ## C7 -/

/-- C9. `load_df` is total over every outcome of the underlying read: it
returns the stored rows when the query succeeds and the empty sequence on
any access fault (absent table included); no error reaches the caller. -/
theorem c9_load_df_degraded_read :
    (∀ rows : List Row, load_df (Except.ok rows) = rows) ∧
    (∀ e : Unit, load_df (Except.error e) = []) :=
  ⟨fun _ => rfl, fun _ => rfl⟩

/-! ## C10 -/

/-- C10. The keyed writes touch only their own key: after `upsert_row a`
the records with an id other than `a`'s are exactly those of the prior
store, unchanged and in order; `delete_activity id` produces exactly the
records whose id differs from `id`; deleting an absent id is a no-op; and
deleting twice equals deleting once. -/
theorem c10_keyed_writes_frame (row : Row) (id : String) (store : List Row) :
    ((upsert_row row store).filter (fun r => r.activity_id != row.activity_id) =
      store.filter (fun r => r.activity_id != row.activity_id)) ∧
    delete_activity id store = store.filter (fun r => r.activity_id != some id) ∧
    ((∀ r ∈ store, r.activity_id ≠ some id) → delete_activity id store = store) ∧
    delete_activity id (delete_activity id store) = delete_activity id store := by
  refine ⟨?_, delete_activity_eq id store, ?_, ?_⟩
  · unfold upsert_row
    rw [List.filter_append, List.filter_filter]
    have h2 : List.filter (fun r => r.activity_id != row.activity_id) [row] = [] := by
      simp
    rw [h2, List.append_nil]
    apply List.filter_congr
    intro r _
    cases hx : r.activity_id <;> cases hy : row.activity_id <;>
      simp [sqlEqId, Bool.and_not_self, Bool.and_self]
  · intro h
    rw [delete_activity_eq]
    apply List.filter_eq_self.mpr
    intro r hr
    exact bne_iff_ne.mpr (h r hr)
  · rw [delete_activity_eq id store, delete_activity_eq]
    apply List.filter_eq_self.mpr
    intro r hr
    exact (List.mem_filter.mp hr).2

theorem c10_witness :
    ((upsert_row sampleRow [sampleRow2]).filter
        (fun r => r.activity_id != sampleRow.activity_id) =
      [sampleRow2].filter (fun r => r.activity_id != sampleRow.activity_id)) ∧
    delete_activity "ZZ" [sampleRow2] =
      [sampleRow2].filter (fun r => r.activity_id != some "ZZ") ∧
    delete_activity "ZZ" [sampleRow2] = [sampleRow2] ∧
    delete_activity "ZZ" (delete_activity "ZZ" [sampleRow2]) =
      delete_activity "ZZ" [sampleRow2] := by
  have h := c10_keyed_writes_frame sampleRow "ZZ" [sampleRow2]
  exact ⟨h.1, h.2.1, h.2.2.1 (by decide), h.2.2.2⟩

/-! ## Grid helper lemmas -/

lemma insertRow_perm (x : Row × DateTime) (l : List (Row × DateTime)) :
    (insertRow x l).Perm (x :: l) := by
  induction l with
  | nil => exact List.Perm.refl _
  | cons y ys ih =>
    unfold insertRow
    split
    · exact List.Perm.refl _
    · exact (ih.cons y).trans (List.Perm.swap x y ys)

lemma sortByStart_perm (l : List (Row × DateTime)) : (sortByStart l).Perm l := by
  induction l with
  | nil => exact List.Perm.refl _
  | cons x xs ih => exact (insertRow_perm x (sortByStart xs)).trans (ih.cons x)

lemma eventLines_length (L : List (Row × DateTime)) (day : Nat) :
    (eventLines (sortByStart L) day).length =
      (L.filter (fun p => p.2.day == day)).length := by
  unfold eventLines
  rw [List.length_map]
  exact ((sortByStart_perm L).filter _).length_eq

lemma figure_eq_some (df : List Row) (sups : List String) (year month maxl : Nat)
    (g : List (List Cell)) (hg : month_calendar_figure df sups year month maxl = some g) :
    ∃ parsed, parseAll df = some parsed ∧
      g = (monthcalendar year month).map (fun week =>
        week.map (buildCell (sortByStart (supplierFilter (monthFilter parsed year month) sups)) maxl)) := by
  unfold month_calendar_figure at hg
  cases hpa : parseAll df with
  | none => rw [hpa] at hg; exact absurd hg (by simp)
  | some parsed =>
    rw [hpa] at hg
    rw [Option.some_bind] at hg
    split at hg
    · exact absurd hg (by simp)
    · exact ⟨parsed, rfl, (Option.some.inj hg).symm⟩

lemma daysInMonth_bounds (y m : Nat) : 28 ≤ daysInMonth y m ∧ daysInMonth y m ≤ 31 := by
  unfold daysInMonth
  split_ifs <;> omega

lemma buildCell_day (s : List (Row × DateTime)) (maxl day : Nat) (h : day ≠ 0) :
    (buildCell s maxl day).day = day := by
  unfold buildCell
  rw [if_neg h]

lemma buildCell_lines_length (s : List (Row × DateTime)) (maxl day : Nat) (h : day ≠ 0) :
    (buildCell s maxl day).lines.length = min (eventLines s day).length maxl := by
  unfold buildCell
  rw [if_neg h]
  dsimp only
  rw [List.length_take]
  omega

lemma buildCell_overflow (s : List (Row × DateTime)) (maxl day : Nat) (h : day ≠ 0) :
    (buildCell s maxl day).overflow =
      if (eventLines s day).length > min (eventLines s day).length maxl
      then (eventLines s day).length - min (eventLines s day).length maxl
      else 0 := by
  unfold buildCell
  rw [if_neg h]

/-! ## C5 -/

/-- C5. Whenever the layout produces a grid, that grid has the row count
of the standard Monday-first month calendar — its number of weeks, always
4, 5 or 6 — and every row has exactly 7 columns. -/
theorem c5_grid_shape (df : List Row) (sups : List String) (year month maxl : Nat)
    (hy : 1 ≤ year) (hm1 : 1 ≤ month) (hm2 : month ≤ 12)
    (g : List (List Cell)) (hg : month_calendar_figure df sups year month maxl = some g) :
    (g.length = 4 ∨ g.length = 5 ∨ g.length = 6) ∧
    g.length = numWeeks year month ∧
    ∀ wk ∈ g, wk.length = 7 := by
  obtain ⟨parsed, hpa, rfl⟩ := figure_eq_some df sups year month maxl g hg
  have hlen : ((monthcalendar year month).map (fun week =>
      week.map (buildCell (sortByStart (supplierFilter (monthFilter parsed year month) sups)) maxl))).length
      = numWeeks year month := by
    rw [List.length_map]
    unfold monthcalendar
    rw [List.length_map, List.length_range]
  refine ⟨?_, hlen, ?_⟩
  · rw [hlen]
    have h1 : firstWeekday year month < 7 := Nat.mod_lt _ (by norm_num)
    have h2 := daysInMonth_bounds year month
    unfold numWeeks
    omega
  · intro wk hwk
    rw [List.mem_map] at hwk
    obtain ⟨week, hweek, rfl⟩ := hwk
    rw [List.length_map]
    unfold monthcalendar at hweek
    rw [List.mem_map] at hweek
    obtain ⟨w, _, rfl⟩ := hweek
    rw [List.length_map, List.length_range]

/-- The March 2025 grid of an empty store. -/
def emptyMarchGrid : List (List Cell) :=
  (month_calendar_figure [] [] 2025 3 6).getD []

theorem c5_witness :
    (emptyMarchGrid.length = 4 ∨ emptyMarchGrid.length = 5 ∨ emptyMarchGrid.length = 6) ∧
    emptyMarchGrid.length = numWeeks 2025 3 ∧
    ∀ wk ∈ emptyMarchGrid, wk.length = 7 :=
  c5_grid_shape [] [] 2025 3 6 (by decide) (by decide) (by decide) emptyMarchGrid rfl

/-! ## C4 -/

/-- C4. In any produced grid, every day cell satisfies the overflow
invariant: visible lines plus overflow count equal the day's total event
count; when that total exceeds `max_lines` the cell shows exactly
`max_lines` lines and an overflow of total minus `max_lines`, otherwise
all lines are shown and the overflow count is zero. -/
theorem c4_overflow_invariant (df : List Row) (sups : List String) (year month maxl : Nat)
    (g : List (List Cell)) (hg : month_calendar_figure df sups year month maxl = some g)
    (wk : List Cell) (hwk : wk ∈ g) (cell : Cell) (hc : cell ∈ wk) (hday : cell.day ≠ 0) :
    cell.lines.length + cell.overflow = totalEventsOn df sups year month cell.day ∧
    (totalEventsOn df sups year month cell.day > maxl →
      cell.lines.length = maxl ∧
      cell.overflow = totalEventsOn df sups year month cell.day - maxl) ∧
    (totalEventsOn df sups year month cell.day ≤ maxl →
      cell.lines.length = totalEventsOn df sups year month cell.day ∧
      cell.overflow = 0) := by
  obtain ⟨parsed, hpa, rfl⟩ := figure_eq_some df sups year month maxl g hg
  rw [List.mem_map] at hwk
  obtain ⟨week, hweek, rfl⟩ := hwk
  rw [List.mem_map] at hc
  obtain ⟨day, hdmem, rfl⟩ := hc
  set s := sortByStart (supplierFilter (monthFilter parsed year month) sups) with hs
  by_cases hd0 : day = 0
  · subst hd0
    exact absurd rfl hday
  · have hd := buildCell_day s maxl day hd0
    have hn := buildCell_lines_length s maxl day hd0
    have hov := buildCell_overflow s maxl day hd0
    have htot : totalEventsOn df sups year month day = (eventLines s day).length := by
      unfold totalEventsOn
      rw [hpa, hs]
      exact (eventLines_length _ day).symm
    rw [hd, htot, hn, hov]
    by_cases hgt : (eventLines s day).length > min (eventLines s day).length maxl
    · rw [if_pos hgt]
      omega
    · rw [if_neg hgt]
      omega

/-- The March 2025 grid of two events on day 5 with one visible line per
cell, and the day-5 cell inside it (row 1, column 2: March 1st 2025 is a
Saturday, so the 5th sits in the second week, Wednesday column). -/
def marchGrid : List (List Cell) :=
  (month_calendar_figure [sampleRow, sampleRow2] [] 2025 3 1).getD []

def marchWeek2 : List Cell := marchGrid.getD 1 []

def marchDay5Cell : Cell := marchWeek2.getD 2 ⟨0, [], 0⟩

theorem c4_witness :
    marchDay5Cell.lines.length + marchDay5Cell.overflow =
      totalEventsOn [sampleRow, sampleRow2] [] 2025 3 marchDay5Cell.day ∧
    (totalEventsOn [sampleRow, sampleRow2] [] 2025 3 marchDay5Cell.day > 1 →
      marchDay5Cell.lines.length = 1 ∧
      marchDay5Cell.overflow =
        totalEventsOn [sampleRow, sampleRow2] [] 2025 3 marchDay5Cell.day - 1) := by
  have h := c4_overflow_invariant [sampleRow, sampleRow2] [] 2025 3 1 marchGrid rfl
    marchWeek2 (by decide) marchDay5Cell (by decide) (by decide)
  exact ⟨h.1, h.2.1⟩

end AMCalendar
